import Mathlib

/-!
Verification development for the frp-web-lite resource guardian and its
supporting modules (`resource_guardian.py`, `app.py`, `performance_monitor.py`).

Shallow embedding conventions:
* Wall-clock instants, seconds, megabytes and percentages are modelled as `Int`
  (the Python code carries them as floats, but every property at issue is an
  order comparison, which the integer model preserves exactly).
* External effects (subprocess invocations, psutil queries) are modelled by an
  explicit environment value describing what the outside world would answer.
* A Python function that can raise is modelled with `Except`; a function that
  catches everything and returns is modelled as total.
-/

/-- Outcome of one `subprocess.run` invocation as observed by the Python code:
either the process completed with an exit status and captured streams, or
`TimeoutExpired` was raised, or some other exception was raised. -/
inductive CmdOutcome where
  | completed (returncode : Int) (stdout : String) (stderr : String)
  | timeout
  | raised (msg : String)
deriving DecidableEq

/-- Did the command complete with exit status zero?  This is the success
condition `result.returncode == 0` used by `restart_service`. -/
def cmdExitZero : CmdOutcome → Bool
  | .completed rc _ _ => rc == 0
  | .timeout => false
  | .raised _ => false

/-- Log levels used by `ResourceGuardian.log` (`resource_guardian.py:52`). -/
inductive LogLevel where
  | info
  | warning
  | error
deriving DecidableEq

/-- Structured reasons returned by `should_restart_service`
(`resource_guardian.py:116-139`); each constructor corresponds to one of the
f-strings built in the source, carrying the numeric payloads interpolated
there. -/
inductive Reason where
  | autoRestartDisabled
  | cooldownActive (remainingSeconds : Int)
  | maxRestartsReached
  | memoryExceeded (measuredMB : Int) (limitMB : Int)
  | cpuExceeded (measuredPercent : Int) (limitPercent : Int)
  | withinLimits
deriving DecidableEq

/-- Resolved configuration of the guardian: the dictionary returned by
`load_config`, which always carries every key (defaults merged with the user
file), read through `self.config.get(...)` and the attributes set in
`__init__` (`resource_guardian.py:17-27`). -/
structure GuardianConfig where
  service_name : String
  memory_limit_mb : Int
  cpu_limit_percent : Int
  check_interval : Int
  restart_cooldown : Int
  max_restarts_per_hour : Nat
  enable_auto_restart : Bool
  enable_memory_cleanup : Bool
deriving DecidableEq

/-- Per-process statistics returned by `get_process_stats`
(`resource_guardian.py:77-95`). -/
structure ProcessStats where
  memory_mb : Int
  memory_percent : Int
  cpu_percent : Int
  num_threads : Nat
  status : String
deriving DecidableEq

/-- System-wide statistics returned by `get_system_stats`
(`resource_guardian.py:97-114`). -/
structure SystemStats where
  memory_total_mb : Int
  memory_available_mb : Int
  memory_percent : Int
  cpu_percent : Int
  disk_free_gb : Int
  disk_percent : Int
deriving DecidableEq

/-- The guardian's mutable restart-rate state: `self.last_restart` (a nullable
timestamp) and `self.restart_count` (`resource_guardian.py:25-26`). -/
structure RestartState where
  last_restart : Option Int
  restart_count : Nat
deriving DecidableEq

/-- Cooldown test of `should_restart_service` (`resource_guardian.py:122-125`):
when `self.last_restart` is set and the elapsed time is strictly below the
cooldown, the remaining seconds are reported; otherwise the check passes. -/
def cooldown_remaining (st : RestartState) (now : Int) (cooldown : Int) : Option Int :=
  match st.last_restart with
  | none => none
  | some t => if now - t < cooldown then some (cooldown - (now - t)) else none

/-- Embedding of `should_restart_service` (`resource_guardian.py:116-139`):
the sequential early-return rule chain of the source, returning the decision
flag and the reason string (as a structured `Reason`). -/
def should_restart_service (cfg : GuardianConfig) (st : RestartState) (now : Int)
    (ps : ProcessStats) : Bool × Reason :=
  if cfg.enable_auto_restart = false then
    (false, .autoRestartDisabled)
  else
    match cooldown_remaining st now cfg.restart_cooldown with
    | some rem => (false, .cooldownActive rem)
    | none =>
      if cfg.max_restarts_per_hour ≤ st.restart_count then
        (false, .maxRestartsReached)
      else if cfg.memory_limit_mb < ps.memory_mb then
        (true, .memoryExceeded ps.memory_mb cfg.memory_limit_mb)
      else if cfg.cpu_limit_percent < ps.cpu_percent then
        (true, .cpuExceeded ps.cpu_percent cfg.cpu_limit_percent)
      else
        (false, .withinLimits)

/-- Embedding of `restart_service` (`resource_guardian.py:141-163`): given the
outcome of the `systemctl restart` command, returns the Python return value and
the updated restart state.  Exit status zero advances `last_restart` and
`restart_count`; a non-zero exit status, a timeout or any other exception
leaves the state untouched and returns `False`. -/
def restart_service (st : RestartState) (now : Int) (outcome : CmdOutcome) :
    Bool × RestartState :=
  match outcome with
  | .completed rc _ _ =>
    if rc == 0 then (true, ⟨some now, st.restart_count + 1⟩)
    else (false, st)
  | .timeout => (false, st)
  | .raised _ => (false, st)

/-- Embedding of `reset_restart_counter` (`resource_guardian.py:217-220`). -/
def reset_restart_counter (st : RestartState) : RestartState :=
  { st with restart_count := 0 }

/-- C1: the restart decision evaluates its rules in the source order with
first-match-wins: (a) auto-restart disabled, (b) cooldown active with the
remaining seconds in the reason, (c) hourly budget exhausted, (d) memory over
limit, (e) CPU over limit, (f) within limits.  Conjunct (d) places no
hypothesis on the CPU reading, so when memory and CPU are both over their
limits the memory reason wins. -/
theorem should_restart_service_rule_order (cfg : GuardianConfig) (st : RestartState)
    (now : Int) (ps : ProcessStats) :
    (cfg.enable_auto_restart = false →
      should_restart_service cfg st now ps = (false, .autoRestartDisabled)) ∧
    (∀ t, cfg.enable_auto_restart = true → st.last_restart = some t →
      now - t < cfg.restart_cooldown →
      should_restart_service cfg st now ps =
        (false, .cooldownActive (cfg.restart_cooldown - (now - t)))) ∧
    (cfg.enable_auto_restart = true →
      cooldown_remaining st now cfg.restart_cooldown = none →
      cfg.max_restarts_per_hour ≤ st.restart_count →
      should_restart_service cfg st now ps = (false, .maxRestartsReached)) ∧
    (cfg.enable_auto_restart = true →
      cooldown_remaining st now cfg.restart_cooldown = none →
      st.restart_count < cfg.max_restarts_per_hour →
      cfg.memory_limit_mb < ps.memory_mb →
      should_restart_service cfg st now ps =
        (true, .memoryExceeded ps.memory_mb cfg.memory_limit_mb)) ∧
    (cfg.enable_auto_restart = true →
      cooldown_remaining st now cfg.restart_cooldown = none →
      st.restart_count < cfg.max_restarts_per_hour →
      ps.memory_mb ≤ cfg.memory_limit_mb →
      cfg.cpu_limit_percent < ps.cpu_percent →
      should_restart_service cfg st now ps =
        (true, .cpuExceeded ps.cpu_percent cfg.cpu_limit_percent)) ∧
    (cfg.enable_auto_restart = true →
      cooldown_remaining st now cfg.restart_cooldown = none →
      st.restart_count < cfg.max_restarts_per_hour →
      ps.memory_mb ≤ cfg.memory_limit_mb →
      ps.cpu_percent ≤ cfg.cpu_limit_percent →
      should_restart_service cfg st now ps = (false, .withinLimits)) := by
  refine ⟨?_, ?_, ?_, ?_, ?_, ?_⟩
  · intro h
    simp [should_restart_service, h]
  · intro t he hl hc
    simp [should_restart_service, he, cooldown_remaining, hl, hc]
  · intro he hcd hmax
    simp [should_restart_service, he, hcd, hmax]
  · intro he hcd hmax hmem
    simp [should_restart_service, he, hcd, Nat.not_le.mpr hmax, hmem]
  · intro he hcd hmax hmem hcpu
    simp [should_restart_service, he, hcd, Nat.not_le.mpr hmax,
      Int.not_lt.mpr hmem, hcpu]
  · intro he hcd hmax hmem hcpu
    simp [should_restart_service, he, hcd, Nat.not_le.mpr hmax,
      Int.not_lt.mpr hmem, Int.not_lt.mpr hcpu]

/-- Witness for C1 at the spec scenario with both limits breached: config with
memory limit 100 and CPU limit 80, stats 150 MB and 95 percent CPU; the memory
reason wins. -/
theorem should_restart_service_rule_order_witness :
    should_restart_service ⟨"frp-web-lite", 100, 80, 30, 300, 3, true, true⟩
        ⟨none, 0⟩ 1000 ⟨150, 30, 95, 4, "running"⟩ =
      (true, .memoryExceeded 150 100) :=
  (should_restart_service_rule_order ⟨"frp-web-lite", 100, 80, 30, 300, 3, true, true⟩
      ⟨none, 0⟩ 1000 ⟨150, 30, 95, 4, "running"⟩).2.2.2.1
    rfl rfl (by decide) (by decide)

/-- C2: `restart_service` advances `last_restart` to the current time and
increments `restart_count` by exactly one precisely when the restart command
exits with status zero; on a non-zero exit, a timeout or an exception it
returns `false` and leaves the state unchanged. -/
theorem restart_service_state_update (st : RestartState) (now : Int)
    (outcome : CmdOutcome) :
    restart_service st now outcome =
      if cmdExitZero outcome then (true, ⟨some now, st.restart_count + 1⟩)
      else (false, st) := by
  cases outcome with
  | completed rc out err =>
    by_cases h : rc = 0
    · simp [restart_service, cmdExitZero, h]
    · simp [restart_service, cmdExitZero, h]
  | timeout => simp [restart_service, cmdExitZero]
  | raised msg => simp [restart_service, cmdExitZero]

/-- Logical content of the log lines emitted during one health-check tick
(`resource_guardian.py:178-215` together with the logging inside
`restart_service` and `cleanup_memory`). -/
inductive LogMsg where
  | serviceNotRunning
  | startAttempted
  | startFailed
  | statsUnavailable
  | statsLine (ps : ProcessStats) (systemMemoryPercent : Int)
  | restartingService (r : Reason)
  | restartSucceeded
  | restartFailed
  | memoryCleanupDone
  | memoryCleanupFailed
deriving DecidableEq

/-- One emitted log entry: level and message content. -/
abbrev LogEvent := LogLevel × LogMsg

/-- External commands the guardian can issue during a tick. -/
inductive Command where
  | start
  | restart
  | syncDisks
  | dropCaches
deriving DecidableEq

/-- Python runtime error raised by a tick.  `noneSubscript` is the `TypeError`
raised by subscripting `None` (evaluating `system_stats['memory_percent']`
when `get_system_stats` returned `None`). -/
inductive PyError where
  | noneSubscript
deriving DecidableEq

/-- Environment of one tick: what the external world answers to each query the
tick may make (PID resolution, process stats, system stats, the start command,
the restart command, the cleanup commands). -/
structure TickEnv where
  pid : Option Nat
  proc_stats : Option ProcessStats
  sys_stats : Option SystemStats
  start_raises : Bool
  restart_outcome : CmdOutcome
  cleanup_raises : Bool
deriving DecidableEq

/-- Observable result of one successful (non-raising) health-check tick:
the restart state afterwards, the log entries, the commands issued, and the
restart decision if one was evaluated this tick. -/
structure TickResult where
  state : RestartState
  logs : List LogEvent
  commands : List Command
  decision : Option (Bool × Reason)
deriving DecidableEq

/-- Embedding of `check_service_health` (`resource_guardian.py:178-215`).
The stats log line at line 199-205 interpolates
`system_stats['memory_percent']` unconditionally (its f-string places the
`if system_stats else` conditional inside the literal text, with a stray
closing brace), so when `get_system_stats` returned `None` the line raises a
`TypeError`, modelled as `.error .noneSubscript`. -/
def check_service_health (cfg : GuardianConfig) (st : RestartState) (now : Int)
    (env : TickEnv) : Except PyError TickResult :=
  match env.pid with
  | none =>
    .ok ⟨st,
      (LogLevel.warning, LogMsg.serviceNotRunning) ::
        (if env.start_raises then [(LogLevel.error, LogMsg.startFailed)]
         else [(LogLevel.info, LogMsg.startAttempted)]),
      [Command.start], none⟩
  | some _ =>
    match env.proc_stats with
    | none => .ok ⟨st, [(LogLevel.error, LogMsg.statsUnavailable)], [], none⟩
    | some ps =>
      match env.sys_stats with
      | none => .error .noneSubscript
      | some ss =>
        let d := should_restart_service cfg st now ps
        let restartPart :=
          if d.1 then
            let r := restart_service st now env.restart_outcome
            (r.2,
             (LogLevel.warning, LogMsg.restartingService d.2) ::
               (if r.1 then [(LogLevel.info, LogMsg.restartSucceeded)]
                else [(LogLevel.error, LogMsg.restartFailed)]),
             [Command.restart])
          else (st, ([] : List LogEvent), ([] : List Command))
        let cleanupPart :=
          if 85 < ss.memory_percent then
            if cfg.enable_memory_cleanup then
              if env.cleanup_raises then
                ([(LogLevel.error, LogMsg.memoryCleanupFailed)],
                 [Command.syncDisks, Command.dropCaches])
              else
                ([(LogLevel.info, LogMsg.memoryCleanupDone)],
                 [Command.syncDisks, Command.dropCaches])
            else (([] : List LogEvent), ([] : List Command))
          else (([] : List LogEvent), ([] : List Command))
        .ok ⟨restartPart.1,
          (LogLevel.info, LogMsg.statsLine ps ss.memory_percent) ::
            restartPart.2.1 ++ cleanupPart.1,
          restartPart.2.2 ++ cleanupPart.2,
          some d⟩

/-- Loop-local state of `run_daemon` (`resource_guardian.py:222-246`): the
guardian's restart state plus `last_counter_reset`. -/
structure DaemonState where
  st : RestartState
  last_counter_reset : Int
deriving DecidableEq

/-- One iteration of the `while True` loop of `run_daemon`
(`resource_guardian.py:229-240`): first the hourly-reset check — the counter is
zeroed only when the elapsed time since the last reset strictly exceeds one
hour, `datetime.now() - last_counter_reset > timedelta(hours=1)` — then
`check_service_health`. -/
def daemon_tick (cfg : GuardianConfig) (ds : DaemonState) (now : Int)
    (env : TickEnv) : Except PyError (DaemonState × TickResult) :=
  let resetPart :=
    if 3600 < now - ds.last_counter_reset then (reset_restart_counter ds.st, now)
    else (ds.st, ds.last_counter_reset)
  (check_service_health cfg resetPart.1 now env).map
    (fun r => (⟨r.state, resetPart.2⟩, r))

/-- Configuration with every field at its default value (`load_config`'s
`default_config`, `resource_guardian.py:31-40`). -/
def default_config : GuardianConfig :=
  ⟨"frp-web-lite", 400, 80, 30, 300, 3, true, true⟩

/-- Tick environment in which PID resolution answers absent. -/
def envPidAbsent : TickEnv := ⟨none, none, none, false, .timeout, false⟩

/-- C3 counterexample: at elapsed time exactly 3600 seconds since the last
counter reset (claim: at least one hour resets), the strict comparison in
`run_daemon` does not fire, and a tick entered with `restart_count = 3`
evaluates with the counter still at 3. -/
theorem daemon_tick_boundary_no_reset :
    daemon_tick default_config ⟨⟨none, 3⟩, 0⟩ 3600 envPidAbsent =
      .ok (⟨⟨none, 3⟩, 0⟩,
        ⟨⟨none, 3⟩,
         [(LogLevel.warning, LogMsg.serviceNotRunning),
          (LogLevel.info, LogMsg.startAttempted)],
         [Command.start], none⟩) := rfl

/-- C3 (amended): whenever the elapsed time since the last counter reset
strictly exceeds 3600 seconds, the tick zeroes `restart_count` and stamps the
reset time before running the health evaluation — the entire health step,
including the restart-policy decision, sees the reset state. -/
theorem daemon_tick_reset_before_health (cfg : GuardianConfig) (ds : DaemonState)
    (now : Int) (env : TickEnv) (h : 3600 < now - ds.last_counter_reset) :
    daemon_tick cfg ds now env =
      (check_service_health cfg (reset_restart_counter ds.st) now env).map
        (fun r => (⟨r.state, now⟩, r)) := by
  simp [daemon_tick, h]

/-- Witness for C3's amended theorem at elapsed time 3601 seconds with a
restart count of 3. -/
theorem daemon_tick_reset_before_health_witness :
    (3600 : Int) < 3601 - 0 ∧
    daemon_tick default_config ⟨⟨none, 3⟩, 0⟩ 3601 envPidAbsent =
      (check_service_health default_config (reset_restart_counter ⟨none, 3⟩) 3601
          envPidAbsent).map (fun r => (⟨r.state, 3601⟩, r)) :=
  ⟨by decide,
   daemon_tick_reset_before_health default_config ⟨⟨none, 3⟩, 0⟩ 3601 envPidAbsent
     (by decide)⟩

/-- C4: on a tick where the PID resolves and process stats are obtained but
the system snapshot is absent, `check_service_health` raises (the stats log
line subscripts `None`), contradicting the claim that the tick is absorbed:
the code diverges from the specified behaviour here. -/
theorem check_service_health_missing_snapshot_raises (cfg : GuardianConfig)
    (st : RestartState) (now : Int) (pid : Nat) (ps : ProcessStats) (sr : Bool)
    (ro : CmdOutcome) (cr : Bool) :
    check_service_health cfg st now ⟨some pid, some ps, none, sr, ro, cr⟩ =
      .error .noneSubscript := rfl

/-- C5: when PID resolution answers absent, the tick logs a WARNING, issues
only the start command, leaves the restart state unchanged, evaluates no
restart decision, and emits no stats line, no restart-decision log entry and
no cleanup command. -/
theorem pid_absent_tick_starts_and_skips (cfg : GuardianConfig) (st : RestartState)
    (now : Int) (env : TickEnv) (h : env.pid = none) :
    check_service_health cfg st now env =
      .ok ⟨st,
        (LogLevel.warning, LogMsg.serviceNotRunning) ::
          (if env.start_raises then [(LogLevel.error, LogMsg.startFailed)]
           else [(LogLevel.info, LogMsg.startAttempted)]),
        [Command.start], none⟩ := by
  obtain ⟨p, a, b, c, d, e⟩ := env
  cases h
  rfl

/-- Witness for C5 on a concrete environment with the PID absent. -/
theorem pid_absent_tick_starts_and_skips_witness :
    check_service_health default_config ⟨none, 0⟩ 0 envPidAbsent =
      .ok ⟨⟨none, 0⟩,
        (LogLevel.warning, LogMsg.serviceNotRunning) ::
          (if envPidAbsent.start_raises then [(LogLevel.error, LogMsg.startFailed)]
           else [(LogLevel.info, LogMsg.startAttempted)]),
        [Command.start], none⟩ :=
  pid_absent_tick_starts_and_skips default_config ⟨none, 0⟩ 0 envPidAbsent rfl

/-- C6: the only mutations of `restart_count` anywhere in the guardian are the
increment by one on a restart command that exits zero and the zeroing by the
hourly reset; in particular a failed restart attempt leaves it unchanged, and
no code path of a health-check tick decreases it. -/
theorem restart_count_mutation_discipline :
    (∀ (st : RestartState) (now : Int) (o : CmdOutcome), cmdExitZero o = false →
      (restart_service st now o).2.restart_count = st.restart_count) ∧
    (∀ (st : RestartState) (now : Int) (o : CmdOutcome), cmdExitZero o = true →
      (restart_service st now o).2.restart_count = st.restart_count + 1) ∧
    (∀ st : RestartState, (reset_restart_counter st).restart_count = 0) ∧
    (∀ (cfg : GuardianConfig) (st : RestartState) (now : Int) (env : TickEnv)
        (r : TickResult), check_service_health cfg st now env = .ok r →
      r.state.restart_count = st.restart_count ∨
        r.state.restart_count = st.restart_count + 1) := by
  refine ⟨?_, ?_, ?_, ?_⟩
  · intro st now o h
    cases o with
    | completed rc out err =>
      simp only [cmdExitZero] at h
      simp [restart_service, h]
    | timeout => rfl
    | raised msg => rfl
  · intro st now o h
    cases o with
    | completed rc out err =>
      simp only [cmdExitZero] at h
      simp [restart_service, h]
    | timeout => simp [cmdExitZero] at h
    | raised msg => simp [cmdExitZero] at h
  · intro st
    rfl
  · intro cfg st now env r h
    obtain ⟨p, pstats, sstats, sr, ro, cr⟩ := env
    cases p with
    | none =>
      simp only [check_service_health] at h
      cases h
      exact Or.inl rfl
    | some pid =>
      cases pstats with
      | none =>
        simp only [check_service_health] at h
        cases h
        exact Or.inl rfl
      | some ps =>
        cases sstats with
        | none => simp [check_service_health] at h
        | some ss =>
          simp only [check_service_health] at h
          cases h
          by_cases hd : (should_restart_service cfg st now ps).1
          · simp only [hd, if_true]
            cases ro with
            | completed rc out err =>
              by_cases hrc : rc = 0
              · simp [restart_service, hrc]
              · simp [restart_service, hrc]
            | timeout => exact Or.inl rfl
            | raised msg => exact Or.inl rfl
          · simp only [hd, if_false]
            exact Or.inl rfl

/-- Witness for C6: a concrete failed restart (timeout) leaves the counter at
2, and the concrete PID-absent tick leaves it at 3. -/
theorem restart_count_mutation_discipline_witness :
    (restart_service ⟨some 10, 2⟩ 500 .timeout).2.restart_count = 2 :=
  restart_count_mutation_discipline.1 ⟨some 10, 2⟩ 500 .timeout rfl

/-- Python status cache dictionary (`app.py:34`): `data` (nullable), the
timestamp of the last fetch, and the time-to-live. -/
structure CacheDict (V : Type) where
  data : Option V
  timestamp : Int
  ttl : Int

/-- Embedding of `get_cached_data` (`app.py:64-70`): given the current time
and the value the fetch function would return if called now, refetches when
the stored data is `None` or strictly older than the TTL, otherwise returns
the cached value unchanged. -/
def get_cached_data {V : Type} (c : CacheDict V) (now : Int) (fetched : Option V) :
    CacheDict V × Option V :=
  if c.data.isNone || decide (c.ttl < now - c.timestamp) then
    (⟨fetched, now, c.ttl⟩, fetched)
  else
    (c, c.data)

/-- C7: the status cache returns the identical stored value for any call
within the TTL window, ignoring what the fetch function would currently
return, and a call strictly past the TTL refetches synchronously, stores the
new value with a fresh timestamp, and returns the newly fetched value. -/
theorem get_cached_data_ttl_contract {V : Type} :
    (∀ (c : CacheDict V) (now : Int) (fetched : Option V) (v : V),
      c.data = some v → now - c.timestamp ≤ c.ttl →
      get_cached_data c now fetched = (c, some v)) ∧
    (∀ (c : CacheDict V) (now : Int) (fetched : Option V),
      c.ttl < now - c.timestamp →
      get_cached_data c now fetched = (⟨fetched, now, c.ttl⟩, fetched)) := by
  constructor
  · intro c now fetched v hv hfresh
    simp [get_cached_data, hv, Int.not_lt.mpr hfresh]
  · intro c now fetched hstale
    simp [get_cached_data, hstale]

/-- Witness for C7: with TTL 5 and value 1 cached at time 0, a fetch function
now returning 2 is ignored at time 3 (the cached 1 is returned), while at time
6 the new value 2 is fetched, stored with timestamp 6 and returned. -/
theorem get_cached_data_ttl_contract_witness :
    get_cached_data (⟨some 1, 0, 5⟩ : CacheDict Nat) 3 (some 2) =
        (⟨some 1, 0, 5⟩, some 1) ∧
    get_cached_data (⟨some 1, 0, 5⟩ : CacheDict Nat) 6 (some 2) =
        (⟨some 2, 6, 5⟩, some 2) :=
  ⟨get_cached_data_ttl_contract.1 ⟨some 1, 0, 5⟩ 3 (some 2) 1 rfl (by decide),
   get_cached_data_ttl_contract.2 ⟨some 1, 0, 5⟩ 6 (some 2) (by decide)⟩

/-- User configuration file content as it matters to the guardian: each known
key either present with a value or absent.  Unknown extra keys are kept by
`dict.update` but never read, so they are not modelled. -/
structure UserConfig where
  service_name : Option String
  memory_limit_mb : Option Int
  cpu_limit_percent : Option Int
  check_interval : Option Int
  restart_cooldown : Option Int
  max_restarts_per_hour : Option Nat
  enable_auto_restart : Option Bool
  enable_memory_cleanup : Option Bool
deriving DecidableEq

/-- What the guardian finds at the config path: no file, a file whose parse
raises, or a parsed JSON object. -/
inductive ConfigSource where
  | missing
  | malformed
  | parsed (u : UserConfig)

/-- Embedding of `load_config` (`resource_guardian.py:29-50`): a missing file
leaves the defaults untouched; a file whose parse (or merge) raises is caught,
logged, and the defaults returned; a parsed object overrides exactly the keys
it carries via `default_config.update(user_config)`.  The function is total:
no input makes it propagate an exception. -/
def load_config : ConfigSource → GuardianConfig
  | .missing => default_config
  | .malformed => default_config
  | .parsed u =>
    ⟨u.service_name.getD default_config.service_name,
     u.memory_limit_mb.getD default_config.memory_limit_mb,
     u.cpu_limit_percent.getD default_config.cpu_limit_percent,
     u.check_interval.getD default_config.check_interval,
     u.restart_cooldown.getD default_config.restart_cooldown,
     u.max_restarts_per_hour.getD default_config.max_restarts_per_hour,
     u.enable_auto_restart.getD default_config.enable_auto_restart,
     u.enable_memory_cleanup.getD default_config.enable_memory_cleanup⟩

/-- C8: config loading is total (never raises to its caller), a missing file
and a malformed file both yield the full default configuration, and a parsed
file takes each present field while every absent field keeps its default. -/
theorem load_config_defaults_and_merge :
    load_config .missing = default_config ∧
    load_config .malformed = default_config ∧
    (∀ u : UserConfig,
      (load_config (.parsed u)).service_name =
          u.service_name.getD default_config.service_name ∧
      (load_config (.parsed u)).memory_limit_mb =
          u.memory_limit_mb.getD default_config.memory_limit_mb ∧
      (load_config (.parsed u)).cpu_limit_percent =
          u.cpu_limit_percent.getD default_config.cpu_limit_percent ∧
      (load_config (.parsed u)).check_interval =
          u.check_interval.getD default_config.check_interval ∧
      (load_config (.parsed u)).restart_cooldown =
          u.restart_cooldown.getD default_config.restart_cooldown ∧
      (load_config (.parsed u)).max_restarts_per_hour =
          u.max_restarts_per_hour.getD default_config.max_restarts_per_hour ∧
      (load_config (.parsed u)).enable_auto_restart =
          u.enable_auto_restart.getD default_config.enable_auto_restart ∧
      (load_config (.parsed u)).enable_memory_cleanup =
          u.enable_memory_cleanup.getD default_config.enable_memory_cleanup) := by
  refine ⟨rfl, rfl, ?_⟩
  intro u
  exact ⟨rfl, rfl, rfl, rfl, rfl, rfl, rfl, rfl⟩

/-- Result dictionary of `execute_command_internal` (`app.py:42-56`): the four
keys `success`, `stdout`, `stderr`, `returncode` that every return path
produces. -/
structure CmdResult where
  success : Bool
  stdout : String
  stderr : String
  returncode : Int
deriving DecidableEq

/-- Embedding of `execute_command_internal` (`app.py:42-56`): a completed
command yields `success = (returncode == 0)` with both streams stripped; a
`TimeoutExpired` is caught and mapped to the sentinel
`{success: false, stdout: '', stderr: 'Timeout', returncode: -1}`; any other
exception is caught and mapped to the same shape with the exception message as
`stderr`. -/
def execute_command_internal : CmdOutcome → CmdResult
  | .completed rc out err => ⟨rc == 0, out.trim, err.trim, rc⟩
  | .timeout => ⟨false, "", "Timeout", -1⟩
  | .raised msg => ⟨false, "", msg, -1⟩

/-- Embedding of `execute_command` (`app.py:58-62`): with caching requested it
returns the memoised result for these arguments when one exists, otherwise
(and always without caching) it delegates to `execute_command_internal`. -/
def execute_command (use_cache : Bool) (cached : Option CmdResult)
    (o : CmdOutcome) : CmdResult :=
  if use_cache then
    match cached with
    | some r => r
    | none => execute_command_internal o
  else execute_command_internal o

/-- C9: `execute_command` is total — every invocation returns a result record
with the four keys — and the failure paths carry the sentinel: a timeout maps
to `{false, '', 'Timeout', -1}`, any other exception to
`{false, '', message, -1}`, while a completed command reports the real exit
status with `success` exactly when it is zero. -/
theorem execute_command_total_and_sentinel :
    (∀ o : CmdOutcome, execute_command false none o = execute_command_internal o) ∧
    execute_command_internal .timeout = ⟨false, "", "Timeout", -1⟩ ∧
    (∀ msg, execute_command_internal (.raised msg) = ⟨false, "", msg, -1⟩) ∧
    (∀ (rc : Int) (out err : String),
      execute_command_internal (.completed rc out err) =
        ⟨rc == 0, out.trim, err.trim, rc⟩) := by
  exact ⟨fun o => rfl, rfl, fun msg => rfl, fun rc out err => rfl⟩

/-- One entry of the dictionary owned by a `lightweight_cache` wrapper
(`performance_monitor.py:146-185`): `cache[key] = (result, timestamp)`.  The
list carries the entries in Python dict insertion order. -/
structure CacheEntry (K V : Type) where
  key : K
  val : V
  timestamp : Int
deriving DecidableEq

/-- Stable insertion of an entry into a timestamp-sorted list, placing it
before the first entry with a timestamp no smaller; together with `sortByTs`
this reproduces Python's stable `sorted(cache.keys(), key=timestamp)`. -/
def insertByTs {K V : Type} (e : CacheEntry K V) :
    List (CacheEntry K V) → List (CacheEntry K V)
  | [] => [e]
  | y :: ys =>
    if e.timestamp ≤ y.timestamp then e :: y :: ys else y :: insertByTs e ys

/-- Stable sort of cache entries by ascending timestamp. -/
def sortByTs {K V : Type} : List (CacheEntry K V) → List (CacheEntry K V)
  | [] => []
  | x :: xs => insertByTs x (sortByTs xs)

/-- Eviction step of the wrapper (`performance_monitor.py:169-173`): when the
cache is strictly larger than `maxsize`, the `len(cache) - maxsize + 1`
entries with the oldest timestamps are deleted. -/
def evictOldest {K V : Type} [DecidableEq K] (maxsize : Nat)
    (c : List (CacheEntry K V)) : List (CacheEntry K V) :=
  if maxsize < c.length then
    c.filter (fun e =>
      !decide (e.key ∈
        ((sortByTs c).take (c.length - maxsize + 1)).map (fun x => x.key)))
  else c

/-- One call of the function wrapped by `lightweight_cache`
(`performance_monitor.py:151-175`): a fresh hit returns the cached value; a
stale hit deletes the entry, recomputes, inserts at the end, and runs the
eviction step; a miss recomputes, inserts, and runs the eviction step. -/
def wrapper_step {K V : Type} [DecidableEq K] (maxsize : Nat) (ttl : Int)
    (c : List (CacheEntry K V)) (k : K) (now : Int) (computed : V) :
    List (CacheEntry K V) × V :=
  match c.find? (fun e => decide (e.key = k)) with
  | some e =>
    if now - e.timestamp < ttl then (c, e.val)
    else
      (evictOldest maxsize
        ((c.filter (fun x => !decide (x.key = k))) ++ [⟨k, computed, now⟩]),
       computed)
  | none => (evictOldest maxsize (c ++ [⟨k, computed, now⟩]), computed)

/-- Embedding of `wrapper.cache_clear` (`performance_monitor.py:177`). -/
def cache_clear {K V : Type} (_c : List (CacheEntry K V)) :
    List (CacheEntry K V) := []

theorem length_insertByTs {K V : Type} (e : CacheEntry K V)
    (l : List (CacheEntry K V)) : (insertByTs e l).length = l.length + 1 := by
  induction l with
  | nil => rfl
  | cons y ys ih =>
    by_cases h : e.timestamp ≤ y.timestamp
    · simp [insertByTs, h]
    · simp [insertByTs, h, ih]

theorem length_sortByTs {K V : Type} (l : List (CacheEntry K V)) :
    (sortByTs l).length = l.length := by
  induction l with
  | nil => rfl
  | cons x xs ih => simp [sortByTs, length_insertByTs, ih]

theorem mem_of_mem_insertByTs {K V : Type} (a e : CacheEntry K V)
    (l : List (CacheEntry K V)) (h : a ∈ insertByTs e l) : a = e ∨ a ∈ l := by
  induction l with
  | nil =>
    simp only [insertByTs, List.mem_singleton] at h
    exact Or.inl h
  | cons y ys ih =>
    by_cases hc : e.timestamp ≤ y.timestamp
    · simp only [insertByTs, hc, if_true] at h
      rcases List.mem_cons.mp h with h1 | h1
      · exact Or.inl h1
      · exact Or.inr h1
    · simp only [insertByTs, hc, if_false] at h
      rcases List.mem_cons.mp h with h1 | h1
      · exact Or.inr (h1 ▸ List.mem_cons_self y ys)
      · rcases ih h1 with h2 | h2
        · exact Or.inl h2
        · exact Or.inr (List.mem_cons_of_mem y h2)

theorem mem_of_mem_sortByTs {K V : Type} (a : CacheEntry K V)
    (l : List (CacheEntry K V)) (h : a ∈ sortByTs l) : a ∈ l := by
  induction l with
  | nil =>
    simp only [sortByTs, List.not_mem_nil] at h
  | cons x xs ih =>
    simp only [sortByTs] at h
    rcases mem_of_mem_insertByTs a x (sortByTs xs) h with h1 | h1
    · exact h1 ▸ List.mem_cons_self x xs
    · exact List.mem_cons_of_mem x (ih h1)

theorem length_filter_lt_of_false {α : Type} (p : α → Bool) (l : List α)
    (a : α) (ha : a ∈ l) (hpa : p a = false) :
    (l.filter p).length < l.length := by
  induction l with
  | nil => cases ha
  | cons x xs ih =>
    rcases List.mem_cons.mp ha with h | h
    · subst h
      simp only [List.filter_cons, hpa, Bool.false_eq_true, if_false,
        List.length_cons]
      exact Nat.lt_succ_of_le (List.length_filter_le p xs)
    · by_cases hx : p x
      · simp only [List.filter_cons, hx, if_true, List.length_cons]
        exact Nat.succ_lt_succ (ih h)
      · have hx' : p x = false := by simpa using hx
        simp only [List.filter_cons, hx', Bool.false_eq_true, if_false,
          List.length_cons]
        exact Nat.lt_succ_of_lt (ih h)

theorem evictOldest_length_le {K V : Type} [DecidableEq K] (m : Nat)
    (l : List (CacheEntry K V)) (h : l.length ≤ m + 1) :
    (evictOldest m l).length ≤ m := by
  unfold evictOldest
  by_cases hlen : m < l.length
  · simp only [hlen, if_true]
    obtain ⟨y, ys, hs⟩ : ∃ y ys, sortByTs l = y :: ys := by
      cases hsv : sortByTs l with
      | nil =>
        exfalso
        have hl0 : l.length = 0 := by
          have := length_sortByTs l
          rw [hsv] at this
          exact this.symm
        omega
      | cons y ys => exact ⟨y, ys, rfl⟩
    have hkeys : ((sortByTs l).take (l.length - m + 1)).map (fun x => x.key) =
        y.key :: ((ys.take (l.length - m)).map (fun x => x.key)) := by
      rw [hs, List.take_succ_cons]
      rfl
    have hmem : y.key ∈
        ((sortByTs l).take (l.length - m + 1)).map (fun x => x.key) := by
      rw [hkeys]
      exact List.mem_cons_self _ _
    have hyl : y ∈ l :=
      mem_of_mem_sortByTs y l (hs ▸ List.mem_cons_self y ys)
    have hlt := length_filter_lt_of_false
      (fun e => !decide (e.key ∈
        ((sortByTs l).take (l.length - m + 1)).map (fun x => x.key)))
      l y hyl (by simpa using hmem)
    omega
  · simp only [hlen, if_false]
    omega

/-- C10 counterexample: with `maxsize = 2`, a cache holding entries with keys
1 and 2 (timestamps 0 and 1) receives a miss on key 3 at time 2.  The
insertion makes the cache exceed the bound by one, so evicting the single
oldest entry would restore it, yet the code also evicts the key-2 entry,
leaving a single entry — eviction does not stop once the bound holds. -/
theorem lightweight_cache_over_eviction :
    (wrapper_step 2 300 ([⟨1, 10, 0⟩, ⟨2, 20, 1⟩] : List (CacheEntry Nat Nat))
        3 2 30).1 = [⟨3, 30, 2⟩] ∧
    (wrapper_step 2 300 ([⟨1, 10, 0⟩, ⟨2, 20, 1⟩] : List (CacheEntry Nat Nat))
        3 2 30).1.length = 1 := ⟨rfl, rfl⟩

/-- C10 (amended): every call of a `lightweight_cache` wrapper preserves the
bound — starting from a cache of at most `maxsize` entries, the cache after
the call holds at most `maxsize` entries (on overflow the code deletes the
`len - maxsize + 1` oldest-timestamped entries, landing at `maxsize - 1`) —
and `cache_clear()` empties the cache entirely. -/
theorem lightweight_cache_bound_and_clear {K V : Type} [DecidableEq K]
    (maxsize : Nat) (ttl : Int) (c : List (CacheEntry K V)) (k : K) (now : Int)
    (computed : V) (hc : c.length ≤ maxsize) :
    (wrapper_step maxsize ttl c k now computed).1.length ≤ maxsize ∧
    cache_clear c = [] := by
  refine ⟨?_, rfl⟩
  unfold wrapper_step
  cases hf : c.find? (fun e => decide (e.key = k)) with
  | none =>
    simp only
    apply evictOldest_length_le
    simp only [List.length_append, List.length_cons, List.length_nil]
    omega
  | some e =>
    simp only
    by_cases ht : now - e.timestamp < ttl
    · simp only [ht, if_true]
      exact hc
    · simp only [ht, if_false]
      apply evictOldest_length_le
      have hfl : (c.filter (fun x => !decide (x.key = k))).length ≤ c.length :=
        List.length_filter_le _ _
      simp only [List.length_append, List.length_cons, List.length_nil]
      omega

/-- Witness for C10's amended theorem on the concrete overflow run: starting
from two entries with `maxsize = 2`, the cache after the call has at most two
entries. -/
theorem lightweight_cache_bound_and_clear_witness :
    (wrapper_step 2 300 ([⟨1, 10, 0⟩, ⟨2, 20, 1⟩] : List (CacheEntry Nat Nat))
        3 2 30).1.length ≤ 2 ∧
    cache_clear ([⟨1, 10, 0⟩, ⟨2, 20, 1⟩] : List (CacheEntry Nat Nat)) = [] :=
  lightweight_cache_bound_and_clear 2 300 [⟨1, 10, 0⟩, ⟨2, 20, 1⟩] 3 2 30
    (by decide)
